import Mathlib

/-!
Verification of `PyOptik/material/base_class.py` (class `BaseMaterial`): the
string representations `__str__`/`__repr__`, the advisory range check
`_check_wavelength`, and the `ensure_units` decorator, shallowly embedded in
Lean 4.  Magnitudes of quantities are modelled by rationals; Python
exceptions are modelled by `Except String`; the advisory channel
(`warnings.warn`) is modelled by the list of warning messages a call emits.
-/

namespace PyOptik

/-- A physical length unit of the external units system (`PyOptik.units`):
a display symbol together with the conversion factor to the base unit
(meters per one of this unit). -/
structure SUnit where
  symbol : String
  toBase : ℚ
deriving DecidableEq, Repr

/-- The `meter` unit constant imported by the source module. -/
def meter : SUnit := ⟨"m", 1⟩

/-- The micrometer unit, used by concrete materials for wavelength bounds. -/
def micrometer : SUnit := ⟨"µm", 1 / 1000000⟩

/-- The nanometer unit. -/
def nanometer : SUnit := ⟨"nm", 1 / 1000000000⟩

/-- A scalar `Quantity` of the external units system: one numeric magnitude
tagged with a unit. -/
structure SQuantity where
  mag : ℚ
  units : SUnit
deriving DecidableEq, Repr

/-- An (array-valued) `Quantity`: a list of magnitudes tagged with one unit.
A scalar quantity is the one-element case. -/
structure Quantity where
  mags : List ℚ
  units : SUnit
deriving DecidableEq, Repr

/-- Value of a scalar quantity expressed in the base unit (meters); the
units system compares quantities of compatible dimension through this
conversion. -/
def SQuantity.baseValue (q : SQuantity) : ℚ := q.mag * q.units.toBase

/-- The strict order `<` on scalar quantities provided by the units
system: comparison after conversion to a common unit. -/
def SQuantity.qlt (a b : SQuantity) : Prop := a.baseValue < b.baseValue

instance (a b : SQuantity) : Decidable (a.qlt b) := by
  unfold SQuantity.qlt; infer_instance

/-- Modelled from the spec: the external units system's human-readable
compact renderer (`Quantity.to_compact`), an out-of-scope collaborator
(spec §1, §6).  Rendered as the magnitude followed by the unit symbol. -/
def SQuantity.to_compact (q : SQuantity) : String :=
  toString q.mag ++ " " ++ q.units.symbol

/-- Computes `numpy.min` over the magnitudes of a quantity: the smallest
element as a scalar quantity with the same unit.  Raises `ValueError` on
an empty array, modelled by `Except.error`. -/
def Quantity.minQ (q : Quantity) : Except String SQuantity :=
  match q.mags with
  | [] => Except.error "ValueError: zero-size array to reduction operation minimum"
  | x :: xs => Except.ok ⟨xs.foldl min x, q.units⟩

/-- Computes `numpy.max` over the magnitudes of a quantity, as
`Quantity.minQ`. -/
def Quantity.maxQ (q : Quantity) : Except String SQuantity :=
  match q.mags with
  | [] => Except.error "ValueError: zero-size array to reduction operation maximum"
  | x :: xs => Except.ok ⟨xs.foldl max x, q.units⟩

/-- The runtime shape of a material's `wavelength_bound` attribute when it
is set.  The data model describes an ordered pair of two unit-bearing
scalars; at runtime this is either a Python tuple of two scalar quantities,
or a single unit-bearing quantity wrapping a two-element array.  Both
shapes destructure into `(min_value, max_value)`, but only the second
carries a `.units` attribute of its own. -/
inductive WavelengthBound where
  | tupleBound (lo hi : SQuantity)
  | quantityBound (lo hi : ℚ) (units : SUnit)
deriving DecidableEq, Repr

/-- Tuple unpacking `min_value, max_value = self.wavelength_bound`:
iterating a two-element quantity yields two scalar quantities sharing the
array's unit. -/
def destructure_bound : WavelengthBound → SQuantity × SQuantity
  | WavelengthBound.tupleBound lo hi => (lo, hi)
  | WavelengthBound.quantityBound lo hi u => (⟨lo, u⟩, ⟨hi, u⟩)

/-- Subscript access `wavelength_bound[i].magnitude` for `i = 0`:
defined for both runtime shapes. -/
def bound_mag0 : WavelengthBound → ℚ
  | WavelengthBound.tupleBound lo _ => lo.mag
  | WavelengthBound.quantityBound lo _ _ => lo

/-- Subscript access `wavelength_bound[1].magnitude`. -/
def bound_mag1 : WavelengthBound → ℚ
  | WavelengthBound.tupleBound _ hi => hi.mag
  | WavelengthBound.quantityBound _ hi _ => hi

/-- Attribute access `wavelength_bound.units`: a plain tuple has no
`.units` attribute, so that shape raises `AttributeError`. -/
def bound_units : WavelengthBound → Except String SUnit
  | WavelengthBound.tupleBound _ _ =>
      Except.error "AttributeError: tuple object has no attribute units"
  | WavelengthBound.quantityBound _ _ u => Except.ok u

/-- A material as consumed by `BaseMaterial`: anything exposing a
`filename` string and an optional `wavelength_bound`. -/
structure Material where
  filename : String
  wavelength_bound : Option WavelengthBound
deriving DecidableEq, Repr

/-- The source's `BaseMaterial.__str__`: the informal string
representation. -/
def informal_repr (self : Material) : String :=
  "Material: " ++ self.filename

/-- The source's `BaseMaterial.__repr__`: the formal string
representation, which just delegates to `__str__`. -/
def formal_repr (self : Material) : String :=
  informal_repr self

/-- The elementwise predicate of the range check, one element of
`wavelength_range`: `(x < min_value) | (x > max_value)` under the units
system's comparison. -/
def out_of_bound (u : SUnit) (min_value max_value : SQuantity) (x : ℚ) : Bool :=
  decide (SQuantity.qlt ⟨x, u⟩ min_value) || decide (SQuantity.qlt max_value ⟨x, u⟩)

/-- The source's `BaseMaterial._check_wavelength`.  The result carries the list of
advisory messages emitted through `warnings.warn` (zero or one), together
with the material and the argument as the caller still sees them after the
call; a Python exception would surface as `Except.error`. -/
def _check_wavelength (self : Material) (wavelength_range : Quantity) :
    Except String (List String × Material × Quantity) :=
  match self.wavelength_bound with
  | none => Except.ok ([], self, wavelength_range)
  | some b =>
    let min_value := (destructure_bound b).1
    let max_value := (destructure_bound b).2
    if wavelength_range.mags.any (out_of_bound wavelength_range.units min_value max_value) then
      match wavelength_range.minQ, wavelength_range.maxQ with
      | Except.ok rmin, Except.ok rmax =>
          Except.ok
            (["Wavelength range goes from " ++ rmin.to_compact ++ " to " ++ rmax.to_compact ++
              " which is outside the allowable range of " ++ min_value.to_compact ++ " to " ++
              max_value.to_compact ++ " µm. [Material: " ++ self.filename ++ "]"],
             self, wavelength_range)
      | Except.error e, _ => Except.error e
      | _, Except.error e => Except.error e
    else
      Except.ok ([], self, wavelength_range)

/-- The advisory template as the spec words it (§4.2 item 4), to be
compared with the message the source constructs. -/
def spec_advisory_template (rmin rmax lo hi filename : String) : String :=
  "Wavelength range goes from " ++ rmin ++ " to " ++ rmax ++
  " which is outside the allowable range of " ++ lo ++ " to " ++ hi ++
  " µm. [Material: " ++ filename ++ "]"

/-- The wavelength argument of an `ensure_units`-wrapped operation, as the
dynamic typing of the source allows it: absent (`None`), a bare number or
bare numeric array, or a unit-bearing quantity. -/
inductive WVal where
  | none
  | bare (xs : List ℚ)
  | qty (q : Quantity)
deriving DecidableEq, Repr

/-- Computes `numpy.linspace start stop num`: `num` evenly spaced values
from `start` to `stop`, both endpoints included. -/
def linspace (start stop : ℚ) (num : ℕ) : List ℚ :=
  (List.range num).map (fun i : ℕ => start + (stop - start) * (i : ℚ) / ((num : ℚ) - 1))

/-- The wavelength-normalization step of `ensure_units.wrapper`: supplies
the default 100-point sweep when the argument is absent (reading
`wavelength_bound[0]`, `[1]` and `.units`, either of which can raise), and
attaches `meter` to a bare number. -/
def normalize_wavelength (self : Material) (wavelength : WVal) :
    Except String Quantity :=
  match wavelength with
  | WVal.none =>
    match self.wavelength_bound with
    | none => Except.error "TypeError: NoneType object is not subscriptable"
    | some b =>
      match bound_units b with
      | Except.error e => Except.error e
      | Except.ok u => Except.ok ⟨linspace (bound_mag0 b) (bound_mag1 b) 100, u⟩
  | WVal.bare xs => Except.ok ⟨xs, meter⟩
  | WVal.qty q => Except.ok q

/-- The source's `BaseMaterial.ensure_units` decorator.  `func` is the wrapped
operation with its remaining (positional and keyword) arguments abstracted
as one value of type `α`; the wrapper normalizes the wavelength and then
delegates. -/
def ensure_units {α β : Type} (func : Material → Quantity → α → β)
    (self : Material) (wavelength : WVal) (args : α) : Except String β :=
  match normalize_wavelength self wavelength with
  | Except.error e => Except.error e
  | Except.ok w => Except.ok (func self w args)

/-! ## Helper lemmas shared by several claims -/

/-- The firing condition of the range check, as the spec words it: the
bound is set and some element of the supplied range is strictly below the
destructured minimum or strictly above the destructured maximum, under the
units system's comparison. -/
def fires (m : Material) (wr : Quantity) : Prop :=
  ∃ b, m.wavelength_bound = some b ∧
    ∃ x ∈ wr.mags,
      SQuantity.qlt ⟨x, wr.units⟩ (destructure_bound b).1 ∨
      SQuantity.qlt (destructure_bound b).2 ⟨x, wr.units⟩

theorem any_out_of_bound_iff (u : SUnit) (mn mx : SQuantity) (l : List ℚ) :
    l.any (out_of_bound u mn mx) = true ↔
      ∃ x ∈ l, SQuantity.qlt ⟨x, u⟩ mn ∨ SQuantity.qlt mx ⟨x, u⟩ := by
  simp [List.any_eq_true, out_of_bound]

theorem check_wavelength_eq_none (m : Material) (wr : Quantity)
    (h : m.wavelength_bound = none) :
    _check_wavelength m wr = Except.ok ([], m, wr) := by
  unfold _check_wavelength; rw [h]

theorem check_wavelength_eq_some (m : Material) (wr : Quantity) (b : WavelengthBound)
    (h : m.wavelength_bound = some b) :
    _check_wavelength m wr =
      if wr.mags.any
          (out_of_bound wr.units (destructure_bound b).1 (destructure_bound b).2) then
        match wr.minQ, wr.maxQ with
        | Except.ok rmin, Except.ok rmax =>
            Except.ok
              (["Wavelength range goes from " ++ rmin.to_compact ++ " to " ++
                rmax.to_compact ++ " which is outside the allowable range of " ++
                (destructure_bound b).1.to_compact ++ " to " ++
                (destructure_bound b).2.to_compact ++ " µm. [Material: " ++
                m.filename ++ "]"],
               m, wr)
        | Except.error e, _ => Except.error e
        | _, Except.error e => Except.error e
      else Except.ok ([], m, wr) := by
  unfold _check_wavelength; rw [h]

theorem check_wavelength_run_spec (m : Material) (wr : Quantity) :
    ∃ ws, _check_wavelength m wr = Except.ok (ws, m, wr) ∧
      (ws = [] ∨ ws.length = 1) ∧
      (ws ≠ [] ↔ fires m wr) := by
  cases hmb : m.wavelength_bound with
  | none =>
      refine ⟨[], check_wavelength_eq_none m wr hmb, Or.inl rfl, ?_⟩
      simp only [fires, hmb, ne_eq, not_true_eq_false, false_iff]
      rintro ⟨b, hb, -⟩
      cases hb
  | some b =>
      rw [check_wavelength_eq_some m wr b hmb]
      by_cases hany :
          wr.mags.any (out_of_bound wr.units (destructure_bound b).1 (destructure_bound b).2)
            = true
      · cases hw : wr.mags with
        | nil => rw [hw] at hany; simp at hany
        | cons x xs =>
            rw [hw] at hany
            rw [if_pos hany]
            have hmin : wr.minQ = Except.ok ⟨xs.foldl min x, wr.units⟩ := by
              unfold Quantity.minQ; rw [hw]
            have hmax : wr.maxQ = Except.ok ⟨xs.foldl max x, wr.units⟩ := by
              unfold Quantity.maxQ; rw [hw]
            rw [hmin, hmax]
            refine ⟨_, rfl, Or.inr rfl, ?_⟩
            simp only [ne_eq, reduceCtorEq, not_false_eq_true, true_iff]
            rcases (any_out_of_bound_iff _ _ _ _).mp hany with ⟨y, hy, hout⟩
            exact ⟨b, hmb, y, by rw [hw]; exact hy, hout⟩
      · rw [if_neg hany]
        refine ⟨[], rfl, Or.inl rfl, ?_⟩
        simp only [ne_eq, not_true_eq_false, false_iff]
        rintro ⟨b2, hb2, y, hy, hout⟩
        rw [hmb] at hb2
        cases hb2
        exact hany ((any_out_of_bound_iff _ _ _ _).mpr ⟨y, hy, hout⟩)

theorem linspace_getElem (start stop : ℚ) (num i : ℕ) (h : i < num) :
    (linspace start stop num)[i]? = some (start + (stop - start) * i / ((num : ℚ) - 1)) := by
  unfold linspace
  rw [List.getElem?_map, List.getElem?_range h]
  rfl

/-! ## Claim theorems -/

/-- C4: `informal_repr` (`__str__`) and `formal_repr` (`__repr__`) return
identical strings, both equal to `"Material: {filename}"`; as pure string
constructions they have no other effect. -/
theorem repr_agree (m : Material) :
    formal_repr m = informal_repr m ∧ informal_repr m = "Material: " ++ m.filename :=
  ⟨rfl, rfl⟩

/-- C6: a bare number or bare numeric array passed as the wavelength is
handed to the wrapped operation with the `meter` unit attached, its
magnitudes unchanged. -/
theorem ensure_units_bare_number_meter {α β : Type} (func : Material → Quantity → α → β)
    (m : Material) (xs : List ℚ) (args : α) :
    normalize_wavelength m (WVal.bare xs) = Except.ok ⟨xs, meter⟩ ∧
    ensure_units func m (WVal.bare xs) args = Except.ok (func m ⟨xs, meter⟩ args) :=
  ⟨rfl, rfl⟩

/-- C7: a wavelength that is already a unit-bearing quantity passes
through the wrapper unchanged (magnitudes and unit intact), and the
wrapper delegates to the wrapped operation with the remaining arguments
unchanged, returning its result unchanged. -/
theorem ensure_units_quantity_passthrough {α β : Type} (func : Material → Quantity → α → β)
    (m : Material) (q : Quantity) (args : α) :
    normalize_wavelength m (WVal.qty q) = Except.ok q ∧
    ensure_units func m (WVal.qty q) args = Except.ok (func m q args) :=
  ⟨rfl, rfl⟩

/-- C9: with `wavelength_bound` unset and the wavelength omitted, the
wrapper fails with a `TypeError` when subscripting `wavelength_bound[0]`,
before the wrapped operation is ever invoked. -/
theorem ensure_units_unset_bound_fails {α β : Type} (func : Material → Quantity → α → β)
    (m : Material) (args : α) (h : m.wavelength_bound = none) :
    ensure_units func m WVal.none args =
      Except.error "TypeError: NoneType object is not subscriptable" := by
  unfold ensure_units normalize_wavelength
  rw [h]

/-- A concrete material with no declared wavelength bound. -/
def glassNoBound : Material := ⟨"glass.yml", none⟩

theorem ensure_units_unset_bound_fails_witness :
    ensure_units (fun _ q (_ : Unit) => q) glassNoBound WVal.none () =
      Except.error "TypeError: NoneType object is not subscriptable" :=
  ensure_units_unset_bound_fails (fun _ q (_ : Unit) => q) glassNoBound () rfl

/-- C1: an advisory is emitted iff the bound is set and some element of the
supplied range is strictly below the minimum or strictly above the maximum
under the units system's comparison; at most one advisory is emitted per
call, and an unset bound, an all-in-range input, or an empty input emits
none. -/
theorem check_wavelength_advisory_iff (m : Material) (wr : Quantity) :
    ∃ ws, _check_wavelength m wr = Except.ok (ws, m, wr) ∧
      (ws = [] ∨ ws.length = 1) ∧
      (ws ≠ [] ↔ ∃ b, m.wavelength_bound = some b ∧
        ∃ x ∈ wr.mags,
          SQuantity.qlt ⟨x, wr.units⟩ (destructure_bound b).1 ∨
          SQuantity.qlt (destructure_bound b).2 ⟨x, wr.units⟩) :=
  check_wavelength_run_spec m wr

/-- C2: every advisory the range check emits is exactly the spec's
template, reporting the minimum and maximum of the supplied range in
compact form, the destructured bounds in compact form, and the material's
filename, in that order. -/
theorem check_wavelength_message_template (m : Material) (wr : Quantity)
    (b : WavelengthBound) (ws : List String) (msg : String) (rmin rmax : SQuantity)
    (hb : m.wavelength_bound = some b)
    (hrun : _check_wavelength m wr = Except.ok (ws, m, wr))
    (hmem : msg ∈ ws)
    (hmin : wr.minQ = Except.ok rmin) (hmax : wr.maxQ = Except.ok rmax) :
    msg = spec_advisory_template rmin.to_compact rmax.to_compact
      (destructure_bound b).1.to_compact (destructure_bound b).2.to_compact
      m.filename := by
  rw [check_wavelength_eq_some m wr b hb] at hrun
  by_cases hany :
      wr.mags.any (out_of_bound wr.units (destructure_bound b).1 (destructure_bound b).2)
        = true
  · rw [if_pos hany, hmin, hmax] at hrun
    dsimp only at hrun
    injection hrun with hp
    injection hp with hws
    rw [← hws] at hmem
    rw [List.mem_singleton] at hmem
    rw [hmem]
    rfl
  · rw [if_neg hany] at hrun
    injection hrun with hp
    injection hp with hws
    rw [← hws] at hmem
    simp at hmem

/-- C3: the range check is purely advisory: it never errors, leaves the
material and the supplied range exactly as they were, and any continuation
run after it still sees the original inputs and produces its result
unimpeded. -/
theorem check_wavelength_is_advisory {α : Type} (m : Material) (wr : Quantity)
    (k : Material → Quantity → α) :
    ∃ ws, _check_wavelength m wr = Except.ok (ws, m, wr) ∧
      Except.map (fun r => k r.2.1 r.2.2) (_check_wavelength m wr) = Except.ok (k m wr) := by
  obtain ⟨ws, hrun, -, -⟩ := check_wavelength_run_spec m wr
  exact ⟨ws, hrun, by rw [hrun]; rfl⟩

/-- C5: with a bound that is a single two-element quantity and the
wavelength omitted, the wrapped operation receives a sweep of exactly 100
evenly spaced values from the bound's first magnitude to its second, both
endpoints included, tagged with the bound's unit. -/
theorem ensure_units_default_sweep {α β : Type} (func : Material → Quantity → α → β)
    (m : Material) (args : α) (lo hi : ℚ) (u : SUnit)
    (h : m.wavelength_bound = some (WavelengthBound.quantityBound lo hi u)) :
    ∃ q, normalize_wavelength m WVal.none = Except.ok q ∧
      ensure_units func m WVal.none args = Except.ok (func m q args) ∧
      q.units = u ∧ q.mags.length = 100 ∧
      q.mags[(0 : ℕ)]? = some lo ∧ q.mags[(99 : ℕ)]? = some hi ∧
      ∀ i : ℕ, i < 100 → q.mags[i]? = some (lo + (hi - lo) * (i : ℚ) / 99) := by
  have hn : normalize_wavelength m WVal.none = Except.ok ⟨linspace lo hi 100, u⟩ := by
    unfold normalize_wavelength; rw [h]; rfl
  refine ⟨⟨linspace lo hi 100, u⟩, hn, ?_, rfl, ?_, ?_, ?_, ?_⟩
  · unfold ensure_units; rw [hn]
  · simp [linspace]
  · rw [linspace_getElem lo hi 100 0 (by norm_num)]
    norm_num
  · rw [linspace_getElem lo hi 100 99 (by norm_num)]
    simp only [Option.some.injEq]
    push_cast
    ring_nf
  · intro i hilt
    rw [linspace_getElem lo hi 100 i hilt]
    norm_num

/-- Sequential composition of two calls of the range check on the same
inputs, collecting the advisories both calls emit in order. -/
def check_twice (m : Material) (wr : Quantity) : Except String (List String) :=
  match _check_wavelength m wr with
  | Except.error e => Except.error e
  | Except.ok (ws1, m1, w1) =>
    match _check_wavelength m1 w1 with
    | Except.error e => Except.error e
    | Except.ok (ws2, _, _) => Except.ok (ws1 ++ ws2)

/-- C8: on an input that makes the range check fire, two successive calls
with the same arguments emit the advisory twice — no deduplication,
suppression, or memoization across calls. -/
theorem check_wavelength_no_memoization (m : Material) (wr : Quantity)
    (hf : fires m wr) :
    ∃ msg, check_twice m wr = Except.ok [msg, msg] := by
  obtain ⟨ws, hrun, hlen, hiff⟩ := check_wavelength_run_spec m wr
  have hne : ws ≠ [] := hiff.mpr hf
  rcases hlen with h0 | h1
  · exact absurd h0 hne
  · obtain ⟨msg, hmsg⟩ : ∃ msg, ws = [msg] := by
      cases ws with
      | nil => simp at h1
      | cons a t =>
          cases t with
          | nil => exact ⟨a, rfl⟩
          | cons c t2 => simp at h1
    subst hmsg
    refine ⟨msg, ?_⟩
    unfold check_twice
    rw [hrun]
    dsimp only
    rw [hrun]
    rfl

/-- C10: the default-sweep path reads `.units` on the bound object itself:
a bound that is a plain tuple of two quantities makes the wrapper raise
`AttributeError` when the wavelength is omitted, and the sweep succeeds
only when the bound is itself a single unit-bearing two-element
quantity. -/
theorem ensure_units_reads_units_on_bound_object {α β : Type}
    (func : Material → Quantity → α → β) (m m2 : Material) (args : α)
    (lo hi : SQuantity)
    (h : m.wavelength_bound = some (WavelengthBound.tupleBound lo hi)) :
    (ensure_units func m WVal.none args =
      Except.error "AttributeError: tuple object has no attribute units") ∧
    (∀ q, normalize_wavelength m2 WVal.none = Except.ok q →
      ∃ a c u, m2.wavelength_bound = some (WavelengthBound.quantityBound a c u)) := by
  constructor
  · unfold ensure_units normalize_wavelength
    rw [h]
    rfl
  · intro q hq
    unfold normalize_wavelength at hq
    cases hb2 : m2.wavelength_bound with
    | none => rw [hb2] at hq; cases hq
    | some b =>
        rw [hb2] at hq
        cases b with
        | tupleBound l2 h2 => simp [bound_units] at hq
        | quantityBound a c u => exact ⟨a, c, u, rfl⟩

/-! ## Concrete materials and inputs for the witnesses -/

/-- A material whose bound is a plain tuple of two scalar quantities:
0.5 µm to 2 µm. -/
def mat2 : Material :=
  ⟨"SiO2.yml", some (WavelengthBound.tupleBound ⟨1/2, micrometer⟩ ⟨2, micrometer⟩)⟩

/-- A scalar wavelength of 3 µm, above `mat2`'s declared maximum. -/
def wr2 : Quantity := ⟨[3], micrometer⟩

/-- A material whose bound is a single two-element quantity:
0.5 µm to 2 µm. -/
def sweepMat : Material :=
  ⟨"BK7.yml", some (WavelengthBound.quantityBound (1/2) 2 micrometer)⟩

/-- The advisory `mat2` emits for `wr2`. -/
def msgW : String :=
  spec_advisory_template (SQuantity.to_compact ⟨3, micrometer⟩)
    (SQuantity.to_compact ⟨3, micrometer⟩) (SQuantity.to_compact ⟨1/2, micrometer⟩)
    (SQuantity.to_compact ⟨2, micrometer⟩) "SiO2.yml"

theorem check_mat2_wr2_run :
    _check_wavelength mat2 wr2 = Except.ok ([msgW], mat2, wr2) := by
  rw [check_wavelength_eq_some mat2 wr2
      (WavelengthBound.tupleBound ⟨1/2, micrometer⟩ ⟨2, micrometer⟩) rfl]
  have hany : wr2.mags.any (out_of_bound wr2.units
      (destructure_bound (WavelengthBound.tupleBound ⟨1/2, micrometer⟩ ⟨2, micrometer⟩)).1
      (destructure_bound (WavelengthBound.tupleBound ⟨1/2, micrometer⟩ ⟨2, micrometer⟩)).2)
        = true := by
    norm_num [wr2, out_of_bound, SQuantity.qlt, SQuantity.baseValue, destructure_bound,
      micrometer]
  rw [if_pos hany]
  rfl

theorem check_wavelength_message_template_witness :
    msgW = spec_advisory_template (SQuantity.to_compact ⟨3, micrometer⟩)
      (SQuantity.to_compact ⟨3, micrometer⟩) (SQuantity.to_compact ⟨1/2, micrometer⟩)
      (SQuantity.to_compact ⟨2, micrometer⟩) "SiO2.yml" :=
  check_wavelength_message_template mat2 wr2
    (WavelengthBound.tupleBound ⟨1/2, micrometer⟩ ⟨2, micrometer⟩)
    [msgW] msgW ⟨3, micrometer⟩ ⟨3, micrometer⟩ rfl check_mat2_wr2_run
    (List.mem_singleton.mpr rfl) rfl rfl

theorem ensure_units_default_sweep_witness :
    normalize_wavelength sweepMat WVal.none =
      Except.ok ⟨linspace (1/2) 2 100, micrometer⟩ ∧
    (linspace (1/2) 2 100).length = 100 ∧
    (linspace (1/2) 2 100)[0]? = some (1/2) ∧
    (linspace (1/2) 2 100)[99]? = some 2 := by
  obtain ⟨q, h1, h2, h3, h4, h5, h6, h7⟩ :=
    ensure_units_default_sweep (fun _ q (_ : Unit) => q) sweepMat () (1/2) 2 micrometer rfl
  have hq : Except.ok q =
      (Except.ok ⟨linspace (1/2) 2 100, micrometer⟩ : Except String Quantity) := by
    rw [← h1]; rfl
  injection hq with hq2
  rw [hq2] at h4 h5 h6
  exact ⟨by rw [← hq2]; exact h1, h4, h5, h6⟩

theorem check_wavelength_no_memoization_witness :
    ∃ msg, check_twice mat2 wr2 = Except.ok [msg, msg] := by
  refine check_wavelength_no_memoization mat2 wr2
    ⟨WavelengthBound.tupleBound ⟨1/2, micrometer⟩ ⟨2, micrometer⟩, rfl, 3, ?_, Or.inr ?_⟩
  · simp [wr2]
  · simp only [SQuantity.qlt, SQuantity.baseValue, destructure_bound, micrometer, wr2]
    norm_num

theorem ensure_units_reads_units_on_bound_object_witness :
    (ensure_units (fun _ q (_ : Unit) => q) mat2 WVal.none () =
      Except.error "AttributeError: tuple object has no attribute units") ∧
    (∃ a c u, sweepMat.wavelength_bound = some (WavelengthBound.quantityBound a c u)) :=
  ⟨(ensure_units_reads_units_on_bound_object (fun _ q (_ : Unit) => q) mat2 sweepMat ()
      ⟨1/2, micrometer⟩ ⟨2, micrometer⟩ rfl).1,
   (ensure_units_reads_units_on_bound_object (fun _ q (_ : Unit) => q) mat2 sweepMat ()
      ⟨1/2, micrometer⟩ ⟨2, micrometer⟩ rfl).2
     ⟨linspace (1/2) 2 100, micrometer⟩ rfl⟩

end PyOptik
